import Mathlib

/-!
Verification of the edupath access-control / activation-cascade engine.

This file is a shallow embedding, in Lean 4, of the access engine of the
edupath Flask/MongoDB application: the entity hierarchy
Subject → Section → Lesson → Test, the per-student activation records and
activation codes (src/models.py), the `AccessContext` decision class
(src/student.py), the cascade / revoke / lock operations
(src/activation_utils.py, src/teacher.py), the code-redemption routes
(src/student.py) and the teacher access-management actions (src/teacher.py).

Modelling conventions:
* Mongo ObjectIds are modelled as `Nat`; each collection is a `List` of
  records; `Model.objects(...)` filters become `List.find?` / `List.filter` /
  `List.any` over those lists, mirroring the exact fields each query uses.
* `datetime.utcnow()` is modelled by passing the current time as a `Nat`
  parameter where a timestamp is stored.
* MongoDB has no transactions here: each `save()` takes effect immediately,
  so an operation that raises midway leaves its earlier writes in place.
  Operations that can raise return `DB × Option String`, the state after the
  writes that happened together with the raised error, if any.
* Content-only fields (titles, descriptions, URLs, owners) play no role in
  any access decision and are omitted from the record types.
-/

namespace EduPath

/-- models.py `Subject`: subject-level gate flag (`requires_code`). -/
structure Subject where
  id : Nat
  requires_code : Bool
deriving Repr, DecidableEq

/-- models.py `Section`: belongs to a subject, has its own gate flag. -/
structure Section where
  id : Nat
  subject_id : Nat
  requires_code : Bool
deriving Repr, DecidableEq

/-- models.py `Lesson`: belongs to a section. -/
structure Lesson where
  id : Nat
  section_id : Nat
  requires_code : Bool
deriving Repr, DecidableEq

/-- models.py `Test`: belongs to a section; `lesson_id = none` means a
section-wide test. -/
structure Test where
  id : Nat
  section_id : Nat
  lesson_id : Option Nat
  requires_code : Bool
deriving Repr, DecidableEq

/-- models.py `SubjectActivation`: per-student grant on a subject. -/
structure SubjectActivation where
  id : Nat
  subject_id : Nat
  student_id : Nat
  active : Bool
deriving Repr, DecidableEq

/-- models.py `SectionActivation`: per-student grant on a section. -/
structure SectionActivation where
  id : Nat
  section_id : Nat
  student_id : Nat
  active : Bool
deriving Repr, DecidableEq

/-- models.py `LessonActivation`: per-student grant on a lesson.  Note the
schema has fields `lesson_id`, `student_id`, `activated_at`, `active` only —
there is no `section_id` field on this document. -/
structure LessonActivation where
  id : Nat
  lesson_id : Nat
  student_id : Nat
  active : Bool
deriving Repr, DecidableEq

/-- models.py `SubjectActivationCode`: one-time redemption token for a
subject, scoped to one student. -/
structure SubjectActivationCode where
  id : Nat
  subject_id : Nat
  student_id : Nat
  code : String
  is_used : Bool
  used_at : Option Nat
deriving Repr, DecidableEq

/-- models.py `ActivationCode`: one-time redemption token for a section,
scoped to one student (this is the section-level code model). -/
structure ActivationCode where
  id : Nat
  section_id : Nat
  student_id : Nat
  code : String
  is_used : Bool
  used_at : Option Nat
deriving Repr, DecidableEq

/-- models.py `LessonActivationCode`: one-time redemption token for a
lesson, scoped to one student. -/
structure LessonActivationCode where
  id : Nat
  lesson_id : Nat
  student_id : Nat
  code : String
  is_used : Bool
  used_at : Option Nat
deriving Repr, DecidableEq

/-- The persistent state: one list per MongoDB collection used by the access
engine, plus a counter supplying fresh ObjectIds for inserted documents. -/
structure DB where
  subjects : List Subject
  sections : List Section
  lessons : List Lesson
  subjectActivations : List SubjectActivation
  sectionActivations : List SectionActivation
  lessonActivations : List LessonActivation
  subjectCodes : List SubjectActivationCode
  sectionCodes : List ActivationCode
  lessonCodes : List LessonActivationCode
  nextId : Nat
deriving Repr, DecidableEq

/-- `SubjectActivation.objects(subject_id=sid, student_id=stu, active=True).first()`
as a Boolean existence check (`bool(... .first())`). -/
def DB.subjectActive (db : DB) (sid stu : Nat) : Bool :=
  db.subjectActivations.any fun r => r.subject_id == sid && r.student_id == stu && r.active

/-- `SectionActivation.objects(section_id=sid, student_id=stu, active=True).first()`
as a Boolean existence check. -/
def DB.sectionActive (db : DB) (sid stu : Nat) : Bool :=
  db.sectionActivations.any fun r => r.section_id == sid && r.student_id == stu && r.active

/-- `LessonActivation.objects(lesson_id=lid, student_id=stu, active=True).first()`
as a Boolean existence check. -/
def DB.lessonActive (db : DB) (lid stu : Nat) : Bool :=
  db.lessonActivations.any fun r => r.lesson_id == lid && r.student_id == stu && r.active

/-- `Section.objects(subject_id=...)` / the `Subject.sections` property. -/
def DB.subjectSections (db : DB) (sid : Nat) : List Section :=
  db.sections.filter fun s => s.subject_id == sid

/-- `Lesson.objects(section_id=...)` / the `Section.lessons` property. -/
def DB.sectionLessons (db : DB) (sid : Nat) : List Lesson :=
  db.lessons.filter fun l => l.section_id == sid

/-- Dereference of a subject reference (`section.subject`). -/
def DB.findSubject (db : DB) (sid : Nat) : Option Subject :=
  db.subjects.find? fun s => s.id == sid

/-- Dereference of a lesson reference (`test.lesson`). -/
def DB.findLesson (db : DB) (lid : Nat) : Option Lesson :=
  db.lessons.find? fun l => l.id == lid

/-- student.py `AccessContext`: the fields computed eagerly in `__init__`.
`first_lesson_id` and `first_section_wide_test_id` are declared by the
source and assigned `None`; no other line of the source reads or writes
them. -/
structure AccessContext where
  subject_requires_code : Bool
  subject_active : Bool
  subject_open : Bool
  section_requires_code : Bool
  section_active : Bool
  section_open : Bool
  lesson_activation_ids : List Nat
  first_lesson_id : Option Nat
  first_section_wide_test_id : Option Nat
deriving Repr, DecidableEq

/-- student.py `AccessContext.__init__(section, student_id)`.
`getattr(self.subject, "requires_code", False)` is modelled by looking the
subject up and defaulting to `false`; `lesson_activation_ids` mirrors the
bulk query guarded by `if lesson_ids:`; the final two fields are the
source's literal `self.first_lesson_id = None` and
`self.first_section_wide_test_id = None`. -/
def mkAccessContext (db : DB) (sec : Section) (stu : Nat) : AccessContext :=
  let subject_requires_code :=
    match db.findSubject sec.subject_id with
    | some s => s.requires_code
    | none => false
  let subject_active := db.subjectActive sec.subject_id stu
  let subject_open := subject_active || !subject_requires_code
  let section_requires_code := sec.requires_code
  let section_active := db.sectionActive sec.id stu
  let section_open :=
    if subject_active then true
    else if subject_requires_code then section_active
    else section_active || !section_requires_code
  let lesson_ids := (db.sectionLessons sec.id).map (fun l => l.id)
  let lesson_activation_ids :=
    if lesson_ids.isEmpty then []
    else
      ((db.lessonActivations.filter fun r =>
          lesson_ids.contains r.lesson_id && r.student_id == stu && r.active).map
        (fun r => r.lesson_id))
  { subject_requires_code := subject_requires_code
    subject_active := subject_active
    subject_open := subject_open
    section_requires_code := section_requires_code
    section_active := section_active
    section_open := section_open
    lesson_activation_ids := lesson_activation_ids
    first_lesson_id := none
    first_section_wide_test_id := none }

/-- student.py `AccessContext.lesson_open(lesson)`. -/
def AccessContext.lesson_open (ctx : AccessContext) (lesson : Lesson) : Bool :=
  if ctx.subject_active then true
  else if ctx.subject_requires_code then
    if ctx.section_active then true
    else ctx.lesson_activation_ids.contains lesson.id
  else if ctx.section_open then true
  else ctx.lesson_activation_ids.contains lesson.id

/-- student.py `AccessContext.test_open(test)`.  The lesson-linked branch
dereferences `test.lesson` and returns `bool(lesson and self.lesson_open(lesson))`,
hence `false` when the reference does not resolve. -/
def AccessContext.test_open (ctx : AccessContext) (db : DB) (t : Test) : Bool :=
  if ctx.subject_active then true
  else
    match t.lesson_id with
    | some lid =>
      match db.findLesson lid with
      | some lesson => ctx.lesson_open lesson
      | none => false
    | none =>
      if ctx.subject_requires_code then ctx.section_active
      else ctx.section_open

/-! ### Cascade operations (src/activation_utils.py) -/

/-- The create-if-absent idiom used throughout activation_utils.py and
teacher.py for lesson grants:
`if not LessonActivation.objects(lesson_id=..., student_id=..., active=True).first():
LessonActivation(lesson_id=..., student_id=...).save()`.
A freshly saved document gets a new ObjectId and `active` defaults to true. -/
def DB.ensureLessonActivation (db : DB) (lid stu : Nat) : DB :=
  if db.lessonActive lid stu then db
  else
    { db with
      lessonActivations := db.lessonActivations ++ [⟨db.nextId, lid, stu, true⟩]
      nextId := db.nextId + 1 }

/-- The same create-if-absent idiom for `SectionActivation`. -/
def DB.ensureSectionActivation (db : DB) (sid stu : Nat) : DB :=
  if db.sectionActive sid stu then db
  else
    { db with
      sectionActivations := db.sectionActivations ++ [⟨db.nextId, sid, stu, true⟩]
      nextId := db.nextId + 1 }

/-- The same create-if-absent idiom for `SubjectActivation`. -/
def DB.ensureSubjectActivation (db : DB) (sid stu : Nat) : DB :=
  if db.subjectActive sid stu then db
  else
    { db with
      subjectActivations := db.subjectActivations ++ [⟨db.nextId, sid, stu, true⟩]
      nextId := db.nextId + 1 }

/-- activation_utils.py `cascade_section_activation(section, student_id)`:
for every lesson of the section, create an active `LessonActivation` if none
exists.  (The `if not section: return` null guard is dropped: every caller
passes an existing section.) -/
def cascade_section_activation (db : DB) (sec : Section) (stu : Nat) : DB :=
  (db.sectionLessons sec.id).foldl (fun d l => d.ensureLessonActivation l.id stu) db

/-- activation_utils.py `cascade_subject_activation(subject, student_id)`:
for every section of the subject, create an active `SectionActivation` if
absent, then do the same for every lesson of that section. -/
def cascade_subject_activation (db : DB) (subj : Subject) (stu : Nat) : DB :=
  (db.subjectSections subj.id).foldl
    (fun d sec =>
      let d1 := d.ensureSectionActivation sec.id stu
      (d1.sectionLessons sec.id).foldl (fun d2 l => d2.ensureLessonActivation l.id stu) d1)
    db

/-- activation_utils.py `cascade_lesson_activation(lesson, student_id)`:
create an active `LessonActivation` for the one lesson if absent. -/
def cascade_lesson_activation (db : DB) (lesson : Lesson) (stu : Nat) : DB :=
  db.ensureLessonActivation lesson.id stu

/-! ### Revoke / lock operations (src/activation_utils.py, src/teacher.py)

The message carried by the `Option String` component below models
mongoengine's `InvalidQueryError`: `revoke_subject_activation`,
`revoke_section_activation`, `lock_subject_access_for_all` and
`lock_section_access_for_all` all run
`LessonActivation.objects(section_id=...)`, and `LessonActivation` declares
no `section_id` field (models.py lines 293–307), so iterating that queryset
raises `InvalidQueryError: Cannot resolve field "section_id"` regardless of
the collection's contents.  Every `save()` before that point has already
taken effect. -/

/-- activation_utils.py `revoke_section_activation(section_id, student_id)`:
the loop over the student's active `SectionActivation` rows completes and
flips them to inactive; the subsequent
`LessonActivation.objects(section_id=section_id)` query then raises, so the
`LessonActivation` rows under the section are never touched. -/
def revoke_section_activation (db : DB) (sec_id stu : Nat) : DB × Option String :=
  let db1 : DB :=
    { db with
      sectionActivations := db.sectionActivations.map fun r =>
        if r.section_id == sec_id && r.student_id == stu && r.active then
          { r with active := false }
        else r }
  (db1, some "InvalidQueryError: Cannot resolve field section_id on LessonActivation")

/-- activation_utils.py `revoke_subject_activation(subject_id, student_id)`:
flips the student's active `SubjectActivation` rows; if the subject has no
sections the function returns, otherwise it flips the student's active
`SectionActivation` rows of those sections and then raises on the same
`LessonActivation.objects(section_id=...)` query. -/
def revoke_subject_activation (db : DB) (subj_id stu : Nat) : DB × Option String :=
  let db1 : DB :=
    { db with
      subjectActivations := db.subjectActivations.map fun r =>
        if r.subject_id == subj_id && r.student_id == stu && r.active then
          { r with active := false }
        else r }
  let secIds := (db1.subjectSections subj_id).map (fun s => s.id)
  if secIds.isEmpty then (db1, none)
  else
    let db2 : DB :=
      { db1 with
        sectionActivations := db1.sectionActivations.map fun r =>
          if secIds.contains r.section_id && r.student_id == stu && r.active then
            { r with active := false }
          else r }
    (db2, some "InvalidQueryError: Cannot resolve field section_id on LessonActivation")

/-- activation_utils.py `lock_section_access_for_all(section_id)`: flips the
active `SectionActivation` rows of the section for every student, then
raises on `LessonActivation.objects(section_id=...)`. -/
def lock_section_access_for_all (db : DB) (sec_id : Nat) : DB × Option String :=
  let db1 : DB :=
    { db with
      sectionActivations := db.sectionActivations.map fun r =>
        if r.section_id == sec_id && r.active then { r with active := false } else r }
  (db1, some "InvalidQueryError: Cannot resolve field section_id on LessonActivation")

/-- activation_utils.py `lock_subject_access_for_all(subject_id)`: flips all
active `SubjectActivation` rows of the subject, then, if the subject has
sections, flips their active `SectionActivation` rows and raises on the same
query. -/
def lock_subject_access_for_all (db : DB) (subj_id : Nat) : DB × Option String :=
  let db1 : DB :=
    { db with
      subjectActivations := db.subjectActivations.map fun r =>
        if r.subject_id == subj_id && r.active then { r with active := false } else r }
  let secIds := (db1.subjectSections subj_id).map (fun s => s.id)
  if secIds.isEmpty then (db1, none)
  else
    let db2 : DB :=
      { db1 with
        sectionActivations := db1.sectionActivations.map fun r =>
          if secIds.contains r.section_id && r.active then { r with active := false } else r }
    (db2, some "InvalidQueryError: Cannot resolve field section_id on LessonActivation")

/-- teacher.py line 1326 `revoke_lesson_activation(lesson_id, student_id)`,
the module-level helper at the bottom of teacher.py: flips active=false on
the student's active `LessonActivation` rows for that lesson.  It queries
only declared fields, so it raises nothing. -/
def revoke_lesson_activation (db : DB) (lid stu : Nat) : DB :=
  { db with
    lessonActivations := db.lessonActivations.map fun r =>
      if r.lesson_id == lid && r.student_id == stu && r.active then
        { r with active := false }
      else r }

/-! ### Code redemption (src/student.py `activate_subject` / `activate_section` /
`activate_lesson`, POST branch with a validated form) -/

/-- Outcome of a redemption attempt, matching the three flash branches. -/
inductive RedeemResult where
  | invalid
  | alreadyUsed
  | success
deriving Repr, DecidableEq

/-- `ac.save()` after setting `is_used`/`used_at` on the single document
returned by `.first()`: update the first list element satisfying `p`. -/
def markFirst {α : Type} (p : α → Bool) (f : α → α) : List α → List α
  | [] => []
  | x :: xs => if p x then f x :: xs else x :: markFirst p f xs

/-- student.py `activate_section(section_id)`, the redemption path:
look the code up scoped to `(section_id, student_id, code)`; no match →
"invalid" flash and no write; matched but used → "already used" flash and no
write; matched and unused → mark it used with a timestamp, create an active
`SectionActivation` if none exists, and run `cascade_section_activation`. -/
def activate_section (db : DB) (sec : Section) (stu : Nat) (code : String)
    (now : Nat) : RedeemResult × DB :=
  match db.sectionCodes.find?
      (fun c => c.section_id == sec.id && c.student_id == stu && c.code == code) with
  | none => (.invalid, db)
  | some ac =>
    if ac.is_used then (.alreadyUsed, db)
    else
      let db1 : DB :=
        { db with
          sectionCodes :=
            markFirst
              (fun c => c.section_id == sec.id && c.student_id == stu && c.code == code)
              (fun c => { c with is_used := true, used_at := some now })
              db.sectionCodes }
      let db2 : DB := db1.ensureSectionActivation sec.id stu
      (.success, cascade_section_activation db2 sec stu)

/-- student.py `activate_subject(subject_id)`, the redemption path
(same shape at subject level, cascading with `cascade_subject_activation`). -/
def activate_subject (db : DB) (subj : Subject) (stu : Nat) (code : String)
    (now : Nat) : RedeemResult × DB :=
  match db.subjectCodes.find?
      (fun c => c.subject_id == subj.id && c.student_id == stu && c.code == code) with
  | none => (.invalid, db)
  | some ac =>
    if ac.is_used then (.alreadyUsed, db)
    else
      let db1 : DB :=
        { db with
          subjectCodes :=
            markFirst
              (fun c => c.subject_id == subj.id && c.student_id == stu && c.code == code)
              (fun c => { c with is_used := true, used_at := some now })
              db.subjectCodes }
      let db2 : DB := db1.ensureSubjectActivation subj.id stu
      (.success, cascade_subject_activation db2 subj stu)

/-- student.py `activate_lesson(lesson_id)`, the redemption path
(same shape at lesson level, cascading with `cascade_lesson_activation`). -/
def activate_lesson (db : DB) (lesson : Lesson) (stu : Nat) (code : String)
    (now : Nat) : RedeemResult × DB :=
  match db.lessonCodes.find?
      (fun c => c.lesson_id == lesson.id && c.student_id == stu && c.code == code) with
  | none => (.invalid, db)
  | some ac =>
    if ac.is_used then (.alreadyUsed, db)
    else
      let db1 : DB :=
        { db with
          lessonCodes :=
            markFirst
              (fun c => c.lesson_id == lesson.id && c.student_id == stu && c.code == code)
              (fun c => { c with is_used := true, used_at := some now })
              db.lessonCodes }
      let db2 : DB := db1.ensureLessonActivation lesson.id stu
      (.success, cascade_lesson_activation db2 lesson stu)

/-! ### Teacher access management (src/teacher.py) -/

/-- Alphabet of teacher.py `_generate_unique_code`:
`string.ascii_uppercase + string.digits`. -/
def isCodeChar (ch : Char) : Bool :=
  (('A' ≤ ch) && (ch ≤ 'Z')) || (('0' ≤ ch) && (ch ≤ '9'))

/-- A value `random.choices(string.ascii_uppercase + string.digits, k=6)`
could have produced: six characters, all uppercase letters or digits. -/
def isValidCode (s : String) : Bool :=
  s.length == 6 && s.data.all isCodeChar

/-- teacher.py `_generate_unique_code(model_cls)`: draw candidates until one
misses the global code table of that model class.  The random draws are
modelled by the stream `cands`; the unbounded `while` loop is modelled with
fuel (the real loop simply does not terminate when every candidate
collides), starting at draw index `i`. -/
def genUniqueCode (cands : Nat → String) (existing : List String) :
    Nat → Nat → Option String
  | _, 0 => none
  | i, fuel + 1 =>
    if existing.contains (cands i) then genUniqueCode cands existing (i + 1) fuel
    else some (cands i)

/-- Outcome of a teacher `generate_code` action.  `nonterminating` is the
fuel-exhaustion artifact of `genUniqueCode` (the source would loop forever). -/
inductive IssueResult where
  | rejected
  | issued (code : String)
  | nonterminating
deriving Repr, DecidableEq

/-- teacher.py `manage_section_access`, `action == "generate_code"` (lines
379–403), for an existing student: rejected when
`ActivationCode.objects(section_id=..., student_id=...).first()` finds ANY
code row for the pair (used or not); otherwise a fresh unique code row is
inserted and the section is auto-activated — an active `SectionActivation`
is created if absent and `cascade_section_activation` runs. -/
def manage_section_access_generate_code (db : DB) (sec : Section) (stu : Nat)
    (cands : Nat → String) (fuel : Nat) : IssueResult × DB :=
  if db.sectionCodes.any (fun c => c.section_id == sec.id && c.student_id == stu) then
    (.rejected, db)
  else
    match genUniqueCode cands (db.sectionCodes.map (fun c => c.code)) 0 fuel with
    | none => (.nonterminating, db)
    | some cv =>
      let db1 : DB :=
        { db with
          sectionCodes := db.sectionCodes ++ [⟨db.nextId, sec.id, stu, cv, false, none⟩]
          nextId := db.nextId + 1 }
      let db2 : DB := db1.ensureSectionActivation sec.id stu
      (.issued cv, cascade_section_activation db2 sec stu)

/-- teacher.py `manage_subject_access`, `action == "generate_code"` (lines
285–311): same shape at subject level, including the `# Auto-activate if not
already` block and `cascade_subject_activation`. -/
def manage_subject_access_generate_code (db : DB) (subj : Subject) (stu : Nat)
    (cands : Nat → String) (fuel : Nat) : IssueResult × DB :=
  if db.subjectCodes.any (fun c => c.subject_id == subj.id && c.student_id == stu) then
    (.rejected, db)
  else
    match genUniqueCode cands (db.subjectCodes.map (fun c => c.code)) 0 fuel with
    | none => (.nonterminating, db)
    | some cv =>
      let db1 : DB :=
        { db with
          subjectCodes := db.subjectCodes ++ [⟨db.nextId, subj.id, stu, cv, false, none⟩]
          nextId := db.nextId + 1 }
      let db2 : DB := db1.ensureSubjectActivation subj.id stu
      (.issued cv, cascade_subject_activation db2 subj stu)

/-- teacher.py `manage_lesson_access`, `action == "generate_code"` (lines
464–488): same shape at lesson level, with `cascade_lesson_activation`. -/
def manage_lesson_access_generate_code (db : DB) (lesson : Lesson) (stu : Nat)
    (cands : Nat → String) (fuel : Nat) : IssueResult × DB :=
  if db.lessonCodes.any (fun c => c.lesson_id == lesson.id && c.student_id == stu) then
    (.rejected, db)
  else
    match genUniqueCode cands (db.lessonCodes.map (fun c => c.code)) 0 fuel with
    | none => (.nonterminating, db)
    | some cv =>
      let db1 : DB :=
        { db with
          lessonCodes := db.lessonCodes ++ [⟨db.nextId, lesson.id, stu, cv, false, none⟩]
          nextId := db.nextId + 1 }
      let db2 : DB := db1.ensureLessonActivation lesson.id stu
      (.issued cv, cascade_lesson_activation db2 lesson stu)

/-- teacher.py `manage_subject_access`, `action == "activate"` (lines
320–331): create an active `SubjectActivation` if absent, then cascade. -/
def teacher_activate_subject (db : DB) (subj : Subject) (stu : Nat) : DB :=
  cascade_subject_activation (db.ensureSubjectActivation subj.id stu) subj stu

/-- teacher.py `manage_section_access`, `action == "activate"` (lines
412–423): create an active `SectionActivation` if absent, then cascade. -/
def teacher_activate_section (db : DB) (sec : Section) (stu : Nat) : DB :=
  cascade_section_activation (db.ensureSectionActivation sec.id stu) sec stu

/-- teacher.py `manage_lesson_access`, `action == "activate"` (lines
497–508): create an active `LessonActivation` if absent, then cascade. -/
def teacher_activate_lesson (db : DB) (lesson : Lesson) (stu : Nat) : DB :=
  cascade_lesson_activation (db.ensureLessonActivation lesson.id stu) lesson stu

/-- teacher.py `manage_subject_access`, `action == "delete_code"` (lines
333–339): delete the code document by id if it belongs to this subject. -/
def delete_subject_code (db : DB) (subj_id code_id : Nat) : DB :=
  match db.subjectCodes.find? (fun c => c.id == code_id) with
  | none => db
  | some ac =>
    if ac.subject_id == subj_id then
      { db with subjectCodes := db.subjectCodes.eraseP (fun c => c.id == code_id) }
    else db

/-- teacher.py `manage_section_access`, `action == "delete_code"` (lines
425–431). -/
def delete_section_code (db : DB) (sec_id code_id : Nat) : DB :=
  match db.sectionCodes.find? (fun c => c.id == code_id) with
  | none => db
  | some ac =>
    if ac.section_id == sec_id then
      { db with sectionCodes := db.sectionCodes.eraseP (fun c => c.id == code_id) }
    else db

/-- teacher.py `manage_lesson_access`, `action == "delete_code"` (lines
510–516). -/
def delete_lesson_code (db : DB) (lid code_id : Nat) : DB :=
  match db.lessonCodes.find? (fun c => c.id == code_id) with
  | none => db
  | some ac =>
    if ac.lesson_id == lid then
      { db with lessonCodes := db.lessonCodes.eraseP (fun c => c.id == code_id) }
    else db

/-! ### The operations of the access engine as one transition system -/

/-- Every state-mutating operation of the access engine reachable from the
routes: the three redemption routes, the teacher `generate_code`,
`activate`, `revoke` and `delete_code` actions at each level, and the two
lock-for-all operations triggered by toggling `requires_code` on. -/
inductive Action where
  | redeemSubject (subj : Subject) (stu : Nat) (code : String) (now : Nat)
  | redeemSection (sec : Section) (stu : Nat) (code : String) (now : Nat)
  | redeemLesson (lesson : Lesson) (stu : Nat) (code : String) (now : Nat)
  | generateSubjectCode (subj : Subject) (stu : Nat) (cands : Nat → String) (fuel : Nat)
  | generateSectionCode (sec : Section) (stu : Nat) (cands : Nat → String) (fuel : Nat)
  | generateLessonCode (lesson : Lesson) (stu : Nat) (cands : Nat → String) (fuel : Nat)
  | activateSubject (subj : Subject) (stu : Nat)
  | activateSection (sec : Section) (stu : Nat)
  | activateLesson (lesson : Lesson) (stu : Nat)
  | revokeSubject (subj_id stu : Nat)
  | revokeSection (sec_id stu : Nat)
  | revokeLesson (lid stu : Nat)
  | lockSubject (subj_id : Nat)
  | lockSection (sec_id : Nat)
  | deleteSubjectCode (subj_id code_id : Nat)
  | deleteSectionCode (sec_id code_id : Nat)
  | deleteLessonCode (lid code_id : Nat)

/-- The state reached by one operation (for the raising operations, the
state after the writes that preceded the raise). -/
def Action.apply (db : DB) : Action → DB
  | .redeemSubject subj stu code now => (activate_subject db subj stu code now).2
  | .redeemSection sec stu code now => (activate_section db sec stu code now).2
  | .redeemLesson lesson stu code now => (activate_lesson db lesson stu code now).2
  | .generateSubjectCode subj stu cands fuel =>
      (manage_subject_access_generate_code db subj stu cands fuel).2
  | .generateSectionCode sec stu cands fuel =>
      (manage_section_access_generate_code db sec stu cands fuel).2
  | .generateLessonCode lesson stu cands fuel =>
      (manage_lesson_access_generate_code db lesson stu cands fuel).2
  | .activateSubject subj stu => teacher_activate_subject db subj stu
  | .activateSection sec stu => teacher_activate_section db sec stu
  | .activateLesson lesson stu => teacher_activate_lesson db lesson stu
  | .revokeSubject subj_id stu => (revoke_subject_activation db subj_id stu).1
  | .revokeSection sec_id stu => (revoke_section_activation db sec_id stu).1
  | .revokeLesson lid stu => revoke_lesson_activation db lid stu
  | .lockSubject subj_id => (lock_subject_access_for_all db subj_id).1
  | .lockSection sec_id => (lock_section_access_for_all db sec_id).1
  | .deleteSubjectCode subj_id code_id => delete_subject_code db subj_id code_id
  | .deleteSectionCode sec_id code_id => delete_section_code db sec_id code_id
  | .deleteLessonCode lid code_id => delete_lesson_code db lid code_id

/-- The actions that can create activation rows: code redemption, teacher
`activate`, and teacher `generate_code` (which auto-activates), each with
its cascade. -/
def Action.grantsActivation : Action → Bool
  | .redeemSubject _ _ _ _ => true
  | .redeemSection _ _ _ _ => true
  | .redeemLesson _ _ _ _ => true
  | .generateSubjectCode _ _ _ _ => true
  | .generateSectionCode _ _ _ _ => true
  | .generateLessonCode _ _ _ _ => true
  | .activateSubject _ _ => true
  | .activateSection _ _ => true
  | .activateLesson _ _ => true
  | .revokeSubject _ _ => false
  | .revokeSection _ _ => false
  | .revokeLesson _ _ => false
  | .lockSubject _ => false
  | .lockSection _ => false
  | .deleteSubjectCode _ _ => false
  | .deleteSectionCode _ _ => false
  | .deleteLessonCode _ _ => false

/-! ### Fixtures: a small concrete content tree used to evaluate the model -/

/-- Fixture: a subject without a subject-level gate (`requires_code=False`,
the model's default). -/
def subjOpen : Subject := ⟨1, false⟩

/-- Fixture: a gated section (`requires_code=True`) under `subjOpen`. -/
def secGated : Section := ⟨2, 1, true⟩

/-- Fixture: the only (hence minimum-id) lesson of `secGated`. -/
def lessonA : Lesson := ⟨10, 2, true⟩

/-- Fixture: the only (hence minimum-id) section-wide test of `secGated`. -/
def testWide : Test := ⟨20, 2, none, true⟩

/-- Fixture: `secGated`'s content with student 7 holding no activation rows
and no codes. -/
def dbNoActivations : DB :=
  { subjects := [subjOpen]
    sections := [secGated]
    lessons := [lessonA]
    subjectActivations := []
    sectionActivations := []
    lessonActivations := []
    subjectCodes := []
    sectionCodes := []
    lessonCodes := []
    nextId := 100 }

/-! ### Claim theorems -/

/-- C1: the code has no freebie.  In the concrete state `dbNoActivations`
(subject ungated, section gated, student 7 with zero activation rows), the
section is closed to the student and `lesson_open` is `false` for the
minimum-id lesson and `test_open` is `false` for the minimum-id section-wide
test, while `first_lesson_id` and `first_section_wide_test_id` are the
constant `none` the constructor assigns.  This exhibits the divergence
between the code and the claim's freebie rule (the claim says both calls
return true). -/
theorem c1_freebie_absent_eval :
    (mkAccessContext dbNoActivations secGated 7).lesson_open lessonA = false ∧
    (mkAccessContext dbNoActivations secGated 7).test_open dbNoActivations testWide = false ∧
    (mkAccessContext dbNoActivations secGated 7).section_open = false ∧
    (mkAccessContext dbNoActivations secGated 7).first_lesson_id = none ∧
    (mkAccessContext dbNoActivations secGated 7).first_section_wide_test_id = none :=
  ⟨rfl, rfl, rfl, rfl, rfl⟩

/-- C2: an active `SubjectActivation` dominates every decision.  If an
active `SubjectActivation` row exists for the section's subject and the
student, then `section_open` is true and `lesson_open` / `test_open` return
true for every lesson and every test, whatever the `requires_code` flags and
whatever section- or lesson-level activation rows exist (none are
consulted). -/
theorem c2_subject_activation_dominates (db : DB) (sec : Section) (stu : Nat)
    (h : db.subjectActive sec.subject_id stu = true)
    (lesson : Lesson) (t : Test) :
    (mkAccessContext db sec stu).section_open = true ∧
    (mkAccessContext db sec stu).lesson_open lesson = true ∧
    (mkAccessContext db sec stu).test_open db t = true := by
  refine ⟨?_, ?_, ?_⟩ <;>
    simp [mkAccessContext, AccessContext.lesson_open, AccessContext.test_open, h]

/-- Witness for C2 at a concrete state: student 7 holds an active
`SubjectActivation` for subject 1; the gated section, its lesson and its
section-wide test all open. -/
theorem c2_subject_activation_dominates_witness :
    (mkAccessContext
        { dbNoActivations with subjectActivations := [⟨50, 1, 7, true⟩] } secGated 7).section_open
      = true ∧
    (mkAccessContext
        { dbNoActivations with subjectActivations := [⟨50, 1, 7, true⟩] } secGated 7).lesson_open
        lessonA = true ∧
    (mkAccessContext
        { dbNoActivations with subjectActivations := [⟨50, 1, 7, true⟩] } secGated 7).test_open
        { dbNoActivations with subjectActivations := [⟨50, 1, 7, true⟩] } testWide = true :=
  c2_subject_activation_dominates
    { dbNoActivations with subjectActivations := [⟨50, 1, 7, true⟩] } secGated 7
    (by decide) lessonA testWide

/-- C3: `revoke_section_activation` cannot revoke the cascaded lesson
grants.  In the concrete state where student 7 holds an active
`SectionActivation` for section 2 and an active `LessonActivation` for its
lesson 10 (as the activate cascade creates), calling
`revoke_section_activation 2 7` flips the `SectionActivation` but raises
mongoengine's `InvalidQueryError` (the function queries `LessonActivation`
by a `section_id` field the document does not declare), leaving the
`LessonActivation` row active — the claim requires it to become inactive. -/
theorem c3_revoke_section_eval :
    (revoke_section_activation
        { dbNoActivations with
          sectionActivations := [⟨60, 2, 7, true⟩]
          lessonActivations := [⟨61, 10, 7, true⟩] } 2 7).2.isSome = true ∧
    ((revoke_section_activation
        { dbNoActivations with
          sectionActivations := [⟨60, 2, 7, true⟩]
          lessonActivations := [⟨61, 10, 7, true⟩] } 2 7).1).sectionActive 2 7 = false ∧
    ((revoke_section_activation
        { dbNoActivations with
          sectionActivations := [⟨60, 2, 7, true⟩]
          lessonActivations := [⟨61, 10, 7, true⟩] } 2 7).1).lessonActive 10 7 = true :=
  ⟨rfl, rfl, rfl⟩

/-- C5: a section-wide test's openness never depends on lesson activations.
For any two states that differ only in the `LessonActivation` collection
(in particular, in which rows are active), `test_open` returns the same
value for every test with `lesson_id = none`; hence a lesson activation
alone never opens a section-wide test. -/
theorem c5_section_wide_test_independent (db : DB) (las : List LessonActivation)
    (sec : Section) (stu : Nat) (t : Test) (h : t.lesson_id = none) :
    (mkAccessContext { db with lessonActivations := las } sec stu).test_open
        { db with lessonActivations := las } t
      = (mkAccessContext db sec stu).test_open db t := by
  simp [mkAccessContext, AccessContext.test_open, h, DB.subjectActive, DB.sectionActive,
    DB.findSubject]

/-- Witness for C5 at a concrete state: granting student 7 an active
`LessonActivation` for lesson 10 leaves `test_open` of the section-wide test
unchanged. -/
theorem c5_section_wide_test_independent_witness :
    (mkAccessContext { dbNoActivations with lessonActivations := [⟨70, 10, 7, true⟩] }
        secGated 7).test_open
        { dbNoActivations with lessonActivations := [⟨70, 10, 7, true⟩] } testWide
      = (mkAccessContext dbNoActivations secGated 7).test_open dbNoActivations testWide :=
  c5_section_wide_test_independent dbNoActivations [⟨70, 10, 7, true⟩] secGated 7 testWide rfl

/-- The claim's wording of Policy B, written from the spec: subject active →
open; else if the subject requires a code → open iff the section is
activated; else section active or the section not gated.  To be compared
with the `section_open` field computed by `mkAccessContext`. -/
def section_open_policyB_spec (db : DB) (sec : Section) (stu : Nat) (subj : Subject) : Bool :=
  if db.subjectActive sec.subject_id stu then true
  else if subj.requires_code then db.sectionActive sec.id stu
  else db.sectionActive sec.id stu || !sec.requires_code

/-- C6: `AccessContext` computes `section_open` exactly by Policy B.  For
every state, section and student, if the section's subject reference
resolves to `subj`, the `section_open` field equals the spec's Policy B
formula. -/
theorem c6_section_open_policyB (db : DB) (sec : Section) (stu : Nat) (subj : Subject)
    (h : db.findSubject sec.subject_id = some subj) :
    (mkAccessContext db sec stu).section_open = section_open_policyB_spec db sec stu subj := by
  simp [mkAccessContext, section_open_policyB_spec, h]

/-- Witness for C6 at a concrete state: the gated section under the ungated
subject, student 7 without activations. -/
theorem c6_section_open_policyB_witness :
    (mkAccessContext dbNoActivations secGated 7).section_open
      = section_open_policyB_spec dbNoActivations secGated 7 subjOpen :=
  c6_section_open_policyB dbNoActivations secGated 7 subjOpen (by decide)

/-! ### Helper lemmas about the create-if-absent fold -/

theorem ensureLessonActivation_lessons (db : DB) (lid stu : Nat) :
    (db.ensureLessonActivation lid stu).lessons = db.lessons := by
  unfold DB.ensureLessonActivation; split <;> rfl

theorem ensureLessonActivation_sectionActivations (db : DB) (lid stu : Nat) :
    (db.ensureLessonActivation lid stu).sectionActivations = db.sectionActivations := by
  unfold DB.ensureLessonActivation; split <;> rfl

theorem ensureLessonActivation_sectionCodes (db : DB) (lid stu : Nat) :
    (db.ensureLessonActivation lid stu).sectionCodes = db.sectionCodes := by
  unfold DB.ensureLessonActivation; split <;> rfl

theorem ensureLessonActivation_active_self (db : DB) (lid stu : Nat) :
    (db.ensureLessonActivation lid stu).lessonActive lid stu = true := by
  unfold DB.ensureLessonActivation
  split
  · assumption
  · unfold DB.lessonActive
    simp [List.any_append]

theorem ensureLessonActivation_active_mono (db : DB) (lid stu lid' stu' : Nat)
    (h : db.lessonActive lid' stu' = true) :
    (db.ensureLessonActivation lid stu).lessonActive lid' stu' = true := by
  unfold DB.ensureLessonActivation
  split
  · exact h
  · unfold DB.lessonActive at h ⊢
    simp [List.any_append, h]

theorem foldl_ensure_lessons (ls : List Lesson) (db : DB) (stu : Nat) :
    (ls.foldl (fun d l => d.ensureLessonActivation l.id stu) db).lessons = db.lessons := by
  induction ls generalizing db with
  | nil => rfl
  | cons a ls ih =>
    rw [List.foldl_cons, ih, ensureLessonActivation_lessons]

theorem foldl_ensure_sectionActivations (ls : List Lesson) (db : DB) (stu : Nat) :
    (ls.foldl (fun d l => d.ensureLessonActivation l.id stu) db).sectionActivations
      = db.sectionActivations := by
  induction ls generalizing db with
  | nil => rfl
  | cons a ls ih =>
    rw [List.foldl_cons, ih, ensureLessonActivation_sectionActivations]

theorem foldl_ensure_sectionCodes (ls : List Lesson) (db : DB) (stu : Nat) :
    (ls.foldl (fun d l => d.ensureLessonActivation l.id stu) db).sectionCodes
      = db.sectionCodes := by
  induction ls generalizing db with
  | nil => rfl
  | cons a ls ih =>
    rw [List.foldl_cons, ih, ensureLessonActivation_sectionCodes]

theorem foldl_ensure_active_mono (ls : List Lesson) (db : DB) (stu lid' stu' : Nat)
    (h : db.lessonActive lid' stu' = true) :
    (ls.foldl (fun d l => d.ensureLessonActivation l.id stu) db).lessonActive lid' stu'
      = true := by
  induction ls generalizing db with
  | nil => exact h
  | cons a ls ih =>
    rw [List.foldl_cons]
    exact ih _ (ensureLessonActivation_active_mono _ _ _ _ _ h)

theorem foldl_ensure_active_all (ls : List Lesson) (db : DB) (stu : Nat) :
    ∀ l ∈ ls,
      (ls.foldl (fun d l => d.ensureLessonActivation l.id stu) db).lessonActive l.id stu
        = true := by
  induction ls generalizing db with
  | nil => intro l hl; cases hl
  | cons a ls ih =>
    intro l hl
    rw [List.foldl_cons]
    rcases List.mem_cons.mp hl with h | h
    · subst h
      exact foldl_ensure_active_mono ls _ stu _ _ (ensureLessonActivation_active_self db _ stu)
    · exact ih _ l h

theorem foldl_ensure_noop (ls : List Lesson) (db : DB) (stu : Nat)
    (h : ∀ l ∈ ls, db.lessonActive l.id stu = true) :
    ls.foldl (fun d l => d.ensureLessonActivation l.id stu) db = db := by
  induction ls with
  | nil => rfl
  | cons a ls ih =>
    rw [List.foldl_cons]
    have ha : db.ensureLessonActivation a.id stu = db := by
      unfold DB.ensureLessonActivation
      simp [h a (List.mem_cons_self a ls)]
    rw [ha]
    exact ih fun l hl => h l (List.mem_cons_of_mem _ hl)

theorem ensureLessonActivation_prefix (db : DB) (lid stu : Nat) :
    ∃ news, (db.ensureLessonActivation lid stu).lessonActivations
      = db.lessonActivations ++ news := by
  unfold DB.ensureLessonActivation
  split
  · exact ⟨[], by simp⟩
  · exact ⟨[⟨db.nextId, lid, stu, true⟩], rfl⟩

theorem foldl_ensure_prefix (ls : List Lesson) (db : DB) (stu : Nat) :
    ∃ news, (ls.foldl (fun d l => d.ensureLessonActivation l.id stu) db).lessonActivations
      = db.lessonActivations ++ news := by
  induction ls generalizing db with
  | nil => exact ⟨[], by simp⟩
  | cons a ls ih =>
    rw [List.foldl_cons]
    obtain ⟨n1, h1⟩ := ensureLessonActivation_prefix db a.id stu
    obtain ⟨n2, h2⟩ := ih (db.ensureLessonActivation a.id stu)
    exact ⟨n1 ++ n2, by rw [h2, h1, List.append_assoc]⟩

/-- C9: `cascade_section_activation` is idempotent.  Calling it twice for
the same (section, student) yields exactly the state of calling it once;
after one call every lesson of the section has an active `LessonActivation`
for the student; and the pre-existing `LessonActivation` rows are left in
place untouched (new rows are only appended, so no existing row is modified
or duplicated). -/
theorem c9_cascade_idempotent (db : DB) (sec : Section) (stu : Nat) :
    cascade_section_activation (cascade_section_activation db sec stu) sec stu
        = cascade_section_activation db sec stu ∧
    (∀ l ∈ db.sectionLessons sec.id,
      (cascade_section_activation db sec stu).lessonActive l.id stu = true) ∧
    (∃ news, (cascade_section_activation db sec stu).lessonActivations
      = db.lessonActivations ++ news) := by
  have hlessons : (cascade_section_activation db sec stu).lessons = db.lessons :=
    foldl_ensure_lessons _ db stu
  have hsecLessons :
      (cascade_section_activation db sec stu).sectionLessons sec.id
        = db.sectionLessons sec.id := by
    unfold DB.sectionLessons
    rw [hlessons]
  have hall : ∀ l ∈ db.sectionLessons sec.id,
      (cascade_section_activation db sec stu).lessonActive l.id stu = true :=
    foldl_ensure_active_all _ db stu
  refine ⟨?_, hall, foldl_ensure_prefix _ db stu⟩
  show ((cascade_section_activation db sec stu).sectionLessons sec.id).foldl _ _ = _
  rw [hsecLessons]
  exact foldl_ensure_noop _ _ stu hall

/-- Witness for C9 at a concrete state: cascading the gated section for
student 7 twice equals cascading once, and lesson 10 ends up activated. -/
theorem c9_cascade_idempotent_witness :
    cascade_section_activation (cascade_section_activation dbNoActivations secGated 7)
        secGated 7
      = cascade_section_activation dbNoActivations secGated 7 ∧
    (cascade_section_activation dbNoActivations secGated 7).lessonActive 10 7 = true :=
  ⟨(c9_cascade_idempotent dbNoActivations secGated 7).1,
   (c9_cascade_idempotent dbNoActivations secGated 7).2.1 lessonA (by decide)⟩

theorem markFirst_mem {α : Type} (p : α → Bool) (f : α → α) :
    ∀ (l : List α) (ac : α), l.find? p = some ac → f ac ∈ markFirst p f l := by
  intro l
  induction l with
  | nil => intro ac h; cases h
  | cons x xs ih =>
    intro ac h
    by_cases hx : p x = true
    · rw [List.find?_cons_of_pos _ hx] at h
      cases h
      simp [markFirst, hx]
    · rw [List.find?_cons_of_neg _ hx] at h
      simp only [markFirst, hx, if_false]
      exact List.mem_cons_of_mem _ (ih ac h)

theorem ensureSectionActivation_sectionCodes (db : DB) (sid stu : Nat) :
    (db.ensureSectionActivation sid stu).sectionCodes = db.sectionCodes := by
  unfold DB.ensureSectionActivation; split <;> rfl

theorem ensureSectionActivation_lessons (db : DB) (sid stu : Nat) :
    (db.ensureSectionActivation sid stu).lessons = db.lessons := by
  unfold DB.ensureSectionActivation; split <;> rfl

theorem ensureSectionActivation_lessonActivations (db : DB) (sid stu : Nat) :
    (db.ensureSectionActivation sid stu).lessonActivations = db.lessonActivations := by
  unfold DB.ensureSectionActivation; split <;> rfl

theorem ensureSectionActivation_active_self (db : DB) (sid stu : Nat) :
    (db.ensureSectionActivation sid stu).sectionActive sid stu = true := by
  unfold DB.ensureSectionActivation
  split
  · assumption
  · unfold DB.sectionActive
    simp [List.any_append]

/-- `sectionActive` only reads the `sectionActivations` collection. -/
theorem sectionActive_congr (d db : DB) (sid stu : Nat)
    (h : d.sectionActivations = db.sectionActivations) :
    d.sectionActive sid stu = db.sectionActive sid stu := by
  unfold DB.sectionActive
  rw [h]

/-- `sectionLessons` only reads the `lessons` collection. -/
theorem sectionLessons_congr (d db : DB) (sid : Nat) (h : d.lessons = db.lessons) :
    d.sectionLessons sid = db.sectionLessons sid := by
  unfold DB.sectionLessons
  rw [h]

/-- C7: redemption of a section activation code.  The lookup is scoped to
`(section_id, student_id, code)`.  (i) If no code row matches, the attempt
fails as invalid and the state is unchanged.  (ii) If the matching row is
already used, the attempt fails as already-used and the state is unchanged.
(iii) If the matching row is unused, the attempt succeeds, that row is
marked used with the redemption timestamp, an active `SectionActivation`
exists afterwards (created if it was absent), and the cascade has given
every lesson of the section an active `LessonActivation`. -/
theorem c7_redeem_section_code (db : DB) (sec : Section) (stu : Nat) (code : String)
    (now : Nat) :
    (db.sectionCodes.find?
        (fun c => c.section_id == sec.id && c.student_id == stu && c.code == code) = none →
      activate_section db sec stu code now = (.invalid, db)) ∧
    (∀ ac,
      db.sectionCodes.find?
          (fun c => c.section_id == sec.id && c.student_id == stu && c.code == code)
        = some ac →
      ac.is_used = true → activate_section db sec stu code now = (.alreadyUsed, db)) ∧
    (∀ ac,
      db.sectionCodes.find?
          (fun c => c.section_id == sec.id && c.student_id == stu && c.code == code)
        = some ac →
      ac.is_used = false →
      (activate_section db sec stu code now).1 = .success ∧
      { ac with is_used := true, used_at := some now }
        ∈ (activate_section db sec stu code now).2.sectionCodes ∧
      (activate_section db sec stu code now).2.sectionActive sec.id stu = true ∧
      ∀ l ∈ db.sectionLessons sec.id,
        (activate_section db sec stu code now).2.lessonActive l.id stu = true) := by
  refine ⟨?_, ?_, ?_⟩
  · intro h
    unfold activate_section
    rw [h]
  · intro ac hfind hused
    unfold activate_section
    rw [hfind]
    simp [hused]
  · intro ac hfind hused
    unfold activate_section
    rw [hfind]
    simp only [hused, Bool.false_eq_true, if_false]
    set p := fun c : ActivationCode =>
      c.section_id == sec.id && c.student_id == stu && c.code == code with hp
    set db1 : DB :=
      { db with
        sectionCodes :=
          markFirst p (fun c => { c with is_used := true, used_at := some now })
            db.sectionCodes } with hdb1
    set db2 : DB := db1.ensureSectionActivation sec.id stu with hdb2
    have hcodes2 : db2.sectionCodes = db1.sectionCodes :=
      ensureSectionActivation_sectionCodes db1 sec.id stu
    have hcodes3 : (cascade_section_activation db2 sec stu).sectionCodes
        = db2.sectionCodes := foldl_ensure_sectionCodes _ db2 stu
    have hsa : (cascade_section_activation db2 sec stu).sectionActive sec.id stu = true := by
      have hpres : (cascade_section_activation db2 sec stu).sectionActivations
          = db2.sectionActivations := foldl_ensure_sectionActivations _ db2 stu
      rw [sectionActive_congr _ db2 sec.id stu hpres]
      exact ensureSectionActivation_active_self db1 sec.id stu
    refine ⟨trivial, ?_, hsa, ?_⟩
    · rw [hcodes3, hcodes2, hdb1]
      exact markFirst_mem p _ db.sectionCodes ac hfind
    · intro l hl
      have hlessons2 : db2.sectionLessons sec.id = db.sectionLessons sec.id := by
        refine sectionLessons_congr db2 db sec.id ?_
        rw [hdb2, ensureSectionActivation_lessons]
      show ((db2.sectionLessons sec.id).foldl
          (fun d l => d.ensureLessonActivation l.id stu) db2).lessonActive l.id stu = true
      rw [hlessons2]
      exact foldl_ensure_active_all _ db2 stu l hl

/-- Fixture: `dbNoActivations` with an unused section code "QWERTY" issued
to student 7 for the gated section. -/
def dbUnusedCode : DB :=
  { dbNoActivations with sectionCodes := [⟨80, 2, 7, "QWERTY", false, none⟩] }

/-- Fixture: the same state after "QWERTY" has been redeemed (the code row
used at time 5). -/
def dbUsedCode : DB :=
  { dbNoActivations with sectionCodes := [⟨80, 2, 7, "QWERTY", true, some 5⟩] }

/-- Witness for C7, exercising all three branches at concrete states: a
wrong code is invalid and changes nothing; redeeming "QWERTY" against
`dbUsedCode` fails as already used and changes nothing; redeeming it against
`dbUnusedCode` succeeds, marks the row used at time 9, activates the
section, and activates lesson 10 through the cascade. -/
theorem c7_redeem_section_code_witness :
    activate_section dbUnusedCode secGated 7 "WRONG0" 9 = (.invalid, dbUnusedCode) ∧
    activate_section dbUsedCode secGated 7 "QWERTY" 9 = (.alreadyUsed, dbUsedCode) ∧
    (activate_section dbUnusedCode secGated 7 "QWERTY" 9).1 = .success ∧
    (⟨80, 2, 7, "QWERTY", true, some 9⟩ : ActivationCode)
      ∈ (activate_section dbUnusedCode secGated 7 "QWERTY" 9).2.sectionCodes ∧
    (activate_section dbUnusedCode secGated 7 "QWERTY" 9).2.sectionActive 2 7 = true ∧
    (activate_section dbUnusedCode secGated 7 "QWERTY" 9).2.lessonActive 10 7 = true := by
  have h1 := (c7_redeem_section_code dbUnusedCode secGated 7 "WRONG0" 9).1 (by decide)
  have h2 := (c7_redeem_section_code dbUsedCode secGated 7 "QWERTY" 9).2.1
    ⟨80, 2, 7, "QWERTY", true, some 5⟩ (by decide) rfl
  have h3 := (c7_redeem_section_code dbUnusedCode secGated 7 "QWERTY" 9).2.2
    ⟨80, 2, 7, "QWERTY", false, none⟩ (by decide) rfl
  exact ⟨h1, h2, h3.1, h3.2.1, h3.2.2.1, h3.2.2.2 lessonA (by decide)⟩

theorem genUniqueCode_fresh (cands : Nat → String) (existing : List String) :
    ∀ (i fuel : Nat) (cv : String), genUniqueCode cands existing i fuel = some cv →
      existing.contains cv = false ∧ ∃ n, cv = cands n := by
  intro i fuel
  induction fuel generalizing i with
  | zero => intro cv h; cases h
  | succ f ih =>
    intro cv h
    unfold genUniqueCode at h
    split at h
    · exact ih (i + 1) cv h
    · cases h
      refine ⟨?_, i, rfl⟩
      rename_i hcon
      exact Bool.not_eq_true _ ▸ Bool.of_not_eq_true hcon

theorem ensureSectionActivation_sectionCodes_len (db : DB) (sid stu : Nat) :
    (db.ensureSectionActivation sid stu).sectionCodes.length = db.sectionCodes.length := by
  rw [ensureSectionActivation_sectionCodes]

/-- C8 (amended): teacher issuance of a section activation code.  (i) If ANY
code row — used or unused — exists for the (section, student) pair, the
action is rejected and the state is unchanged, so no new code row is
created.  (ii) If no code row exists for the pair and the generation loop
returns a value, exactly the one new code row is appended, unused, carrying
a value distinct from every existing section-code value; and when every
candidate the random generator draws is a 6-character uppercase-or-digit
string, so is the stored value. -/
theorem c8_issue_section_code (db : DB) (sec : Section) (stu : Nat)
    (cands : Nat → String) (fuel : Nat) :
    (db.sectionCodes.any (fun c => c.section_id == sec.id && c.student_id == stu) = true →
      manage_section_access_generate_code db sec stu cands fuel = (.rejected, db)) ∧
    (db.sectionCodes.any (fun c => c.section_id == sec.id && c.student_id == stu) = false →
      ∀ cv, genUniqueCode cands (db.sectionCodes.map (fun c => c.code)) 0 fuel = some cv →
        (manage_section_access_generate_code db sec stu cands fuel).1 = .issued cv ∧
        (manage_section_access_generate_code db sec stu cands fuel).2.sectionCodes
          = db.sectionCodes ++ [⟨db.nextId, sec.id, stu, cv, false, none⟩] ∧
        (db.sectionCodes.map (fun c => c.code)).contains cv = false ∧
        ((∀ n, isValidCode (cands n) = true) → isValidCode cv = true)) := by
  constructor
  · intro h
    unfold manage_section_access_generate_code
    rw [h]
    rfl
  · intro h cv hgen
    unfold manage_section_access_generate_code
    rw [h]
    simp only [Bool.false_eq_true, if_false]
    rw [hgen]
    obtain ⟨hfresh, n, hcv⟩ := genUniqueCode_fresh cands _ 0 fuel cv hgen
    set db1 : DB :=
      { db with
        sectionCodes := db.sectionCodes ++ [⟨db.nextId, sec.id, stu, cv, false, none⟩]
        nextId := db.nextId + 1 } with hdb1
    set db2 : DB := db1.ensureSectionActivation sec.id stu with hdb2
    have hcodes : (cascade_section_activation db2 sec stu).sectionCodes
        = db1.sectionCodes := by
      show ((db2.sectionLessons sec.id).foldl
          (fun d l => d.ensureLessonActivation l.id stu) db2).sectionCodes = db1.sectionCodes
      rw [foldl_ensure_sectionCodes, hdb2, ensureSectionActivation_sectionCodes]
    refine ⟨rfl, ?_, hfresh, fun hvalid => hcv ▸ hvalid n⟩
    exact hcodes

/-- C8 counterexample: the duplicate-issuance guard matches used codes too.
In `dbUsedCode` the only code row for (section 2, student 7) has
`is_used = true`, so no unused code exists for the pair, yet the
`generate_code` action is rejected and creates nothing — refuting the
claim's "rejected if and only if an unused code already exists". -/
theorem c8_used_code_blocks_issuance_cex :
    (manage_section_access_generate_code dbUsedCode secGated 7 (fun _ => "BBBBBB") 3).1
        = .rejected ∧
    (manage_section_access_generate_code dbUsedCode secGated 7 (fun _ => "BBBBBB") 3).2
        = dbUsedCode ∧
    dbUsedCode.sectionCodes.any
        (fun c => c.section_id == 2 && c.student_id == 7 && !c.is_used) = false ∧
    ¬(((manage_section_access_generate_code dbUsedCode secGated 7
            (fun _ => "BBBBBB") 3).1 = .rejected) ↔
        dbUsedCode.sectionCodes.any
            (fun c => c.section_id == 2 && c.student_id == 7 && !c.is_used) = true) :=
  ⟨rfl, rfl, rfl, by decide⟩

/-- Witness for C8 at concrete states: issuance against `dbUsedCode` is
rejected with no state change; issuance against `dbNoActivations` (no code
rows at all) appends exactly the one new unused row with the drawn value
"BBBBBB", which is fresh and well-formed. -/
theorem c8_issue_section_code_witness :
    manage_section_access_generate_code dbUsedCode secGated 7 (fun _ => "BBBBBB") 3
        = (.rejected, dbUsedCode) ∧
    (manage_section_access_generate_code dbNoActivations secGated 7 (fun _ => "BBBBBB") 3).1
        = .issued "BBBBBB" ∧
    (manage_section_access_generate_code dbNoActivations secGated 7
          (fun _ => "BBBBBB") 3).2.sectionCodes
        = [⟨100, 2, 7, "BBBBBB", false, none⟩] ∧
    isValidCode "BBBBBB" = true := by
  have h1 := (c8_issue_section_code dbUsedCode secGated 7 (fun _ => "BBBBBB") 3).1 (by decide)
  have h2 := (c8_issue_section_code dbNoActivations secGated 7 (fun _ => "BBBBBB") 3).2
    (by decide) "BBBBBB" rfl
  exact ⟨h1, h2.1, h2.2.1, h2.2.2.2 (fun _ => by decide)⟩

/-- C4 (amended): within the access engine's operations, activation rows
are created only by the code-redemption routes, the teacher `activate`
actions and the teacher `generate_code` actions (each with its cascade):
every other operation — revoke at all three levels, lock-for-all at both
levels, and code deletion at all three levels — leaves the number of
`SubjectActivation`, `SectionActivation` and `LessonActivation` rows
unchanged. -/
theorem c4_no_other_creation (a : Action) (db : DB) (h : a.grantsActivation = false) :
    (a.apply db).subjectActivations.length = db.subjectActivations.length ∧
    (a.apply db).sectionActivations.length = db.sectionActivations.length ∧
    (a.apply db).lessonActivations.length = db.lessonActivations.length := by
  cases a with
  | redeemSubject subj stu code now => simp [Action.grantsActivation] at h
  | redeemSection sec stu code now => simp [Action.grantsActivation] at h
  | redeemLesson lesson stu code now => simp [Action.grantsActivation] at h
  | generateSubjectCode subj stu cands fuel => simp [Action.grantsActivation] at h
  | generateSectionCode sec stu cands fuel => simp [Action.grantsActivation] at h
  | generateLessonCode lesson stu cands fuel => simp [Action.grantsActivation] at h
  | activateSubject subj stu => simp [Action.grantsActivation] at h
  | activateSection sec stu => simp [Action.grantsActivation] at h
  | activateLesson lesson stu => simp [Action.grantsActivation] at h
  | revokeSubject sid stu =>
    simp only [Action.apply]
    unfold revoke_subject_activation
    dsimp only
    split <;> simp
  | revokeSection sid stu =>
    simp only [Action.apply]
    unfold revoke_section_activation
    simp
  | revokeLesson lid stu =>
    simp only [Action.apply]
    unfold revoke_lesson_activation
    simp
  | lockSubject sid =>
    simp only [Action.apply]
    unfold lock_subject_access_for_all
    dsimp only
    split <;> simp
  | lockSection sid =>
    simp only [Action.apply]
    unfold lock_section_access_for_all
    simp
  | deleteSubjectCode sid cid =>
    simp only [Action.apply]
    unfold delete_subject_code
    split
    · simp
    · split <;> simp
  | deleteSectionCode sid cid =>
    simp only [Action.apply]
    unfold delete_section_code
    split
    · simp
    · split <;> simp
  | deleteLessonCode lid cid =>
    simp only [Action.apply]
    unfold delete_lesson_code
    split
    · simp
    · split <;> simp

/-- Witness for C4 at a concrete state: the lesson-level revoke action
leaves every activation count unchanged. -/
theorem c4_no_other_creation_witness :
    ((Action.revokeLesson 10 7).apply dbNoActivations).subjectActivations.length
        = dbNoActivations.subjectActivations.length ∧
    ((Action.revokeLesson 10 7).apply dbNoActivations).sectionActivations.length
        = dbNoActivations.sectionActivations.length ∧
    ((Action.revokeLesson 10 7).apply dbNoActivations).lessonActivations.length
        = dbNoActivations.lessonActivations.length :=
  c4_no_other_creation (.revokeLesson 10 7) dbNoActivations rfl

/-- C4 counterexample: issuing a code DOES create activation rows.  In
`dbNoActivations` (student 7 holds no code and no activation for the gated
section), the teacher `generate_code` action appends a `SectionActivation`
row and, through its cascade, a `LessonActivation` row, leaving the section
activated for the student — refuting the claim that the issuance operation
never creates an activation row. -/
theorem c4_generate_code_creates_activation_cex :
    ((Action.generateSectionCode secGated 7 (fun _ => "ZZZZZZ") 1).apply
          dbNoActivations).sectionActivations.length
        = dbNoActivations.sectionActivations.length + 1 ∧
    ((Action.generateSectionCode secGated 7 (fun _ => "ZZZZZZ") 1).apply
          dbNoActivations).lessonActivations.length
        = dbNoActivations.lessonActivations.length + 1 ∧
    ((Action.generateSectionCode secGated 7 (fun _ => "ZZZZZZ") 1).apply
          dbNoActivations).sectionActive 2 7 = true ∧
    ¬((Action.generateSectionCode secGated 7 (fun _ => "ZZZZZZ") 1).apply
          dbNoActivations).sectionActivations = dbNoActivations.sectionActivations :=
  ⟨rfl, rfl, rfl, by decide⟩

theorem revokeLessonFlip_any (rows : List LessonActivation) (lid stu : Nat) :
    (rows.map (fun r =>
        if r.lesson_id == lid && r.student_id == stu && r.active then
          { r with active := false }
        else r)).any
      (fun r => r.lesson_id == lid && r.student_id == stu && r.active) = false := by
  induction rows with
  | nil => rfl
  | cons r rows ih =>
    simp only [List.map_cons, List.any_cons, ih, Bool.or_false]
    split
    · simp
    · rename_i hcond
      simpa using hcond

/-- C10 (amended): the lesson-level revoke exists and works.  The teacher
`revoke` action on the lesson-access page calls `revoke_lesson_activation`,
which IS defined (as a module-level helper at the bottom of teacher.py), so
no `NameError` is raised; it flips active=false on the student's active
`LessonActivation` rows for that lesson: afterwards no active row for the
(lesson, student) pair remains, rows of other lessons or students survive
unchanged, and no row is deleted. -/
theorem c10_lesson_revoke_works (db : DB) (lid stu : Nat) :
    (revoke_lesson_activation db lid stu).lessonActive lid stu = false ∧
    (∀ r ∈ db.lessonActivations, (r.lesson_id == lid && r.student_id == stu) = false →
      r ∈ (revoke_lesson_activation db lid stu).lessonActivations) ∧
    (revoke_lesson_activation db lid stu).lessonActivations.length
      = db.lessonActivations.length := by
  refine ⟨?_, ?_, ?_⟩
  · exact revokeLessonFlip_any db.lessonActivations lid stu
  · intro r hr hne
    have hcond : ¬(r.lesson_id == lid && r.student_id == stu && r.active) = true := by
      cases h1 : r.lesson_id == lid <;> cases h2 : r.student_id == stu <;> simp_all
    exact List.mem_map.mpr ⟨r, hr, if_neg hcond⟩
  · exact List.length_map _ _

/-- Witness for C10 at a concrete state: with active rows for lessons 10
and 11 of student 7, revoking lesson 10 deactivates it, keeps lesson 11's
row, and deletes nothing. -/
theorem c10_lesson_revoke_works_witness :
    (revoke_lesson_activation
        { dbNoActivations with
          lessonActivations := [⟨90, 10, 7, true⟩, ⟨91, 11, 7, true⟩] } 10 7).lessonActive
        10 7 = false ∧
    (⟨91, 11, 7, true⟩ : LessonActivation)
      ∈ (revoke_lesson_activation
          { dbNoActivations with
            lessonActivations := [⟨90, 10, 7, true⟩, ⟨91, 11, 7, true⟩] } 10 7).lessonActivations ∧
    (revoke_lesson_activation
        { dbNoActivations with
          lessonActivations := [⟨90, 10, 7, true⟩, ⟨91, 11, 7, true⟩] } 10 7).lessonActivations.length
      = 2 :=
  ⟨(c10_lesson_revoke_works
      { dbNoActivations with lessonActivations := [⟨90, 10, 7, true⟩, ⟨91, 11, 7, true⟩] }
      10 7).1,
   (c10_lesson_revoke_works
      { dbNoActivations with lessonActivations := [⟨90, 10, 7, true⟩, ⟨91, 11, 7, true⟩] }
      10 7).2.1 ⟨91, 11, 7, true⟩ (by decide) (by decide),
   (c10_lesson_revoke_works
      { dbNoActivations with lessonActivations := [⟨90, 10, 7, true⟩, ⟨91, 11, 7, true⟩] }
      10 7).2.2⟩

/-- C10 counterexample: calling the teacher lesson `revoke` action on a
state with one active `LessonActivation` row flips that row to inactive —
the function `revoke_lesson_activation` is defined (teacher.py line 1326)
and deactivates rows, refuting the claim that the action always raises a
`NameError` and never deactivates a row. -/
theorem c10_revoke_lesson_defined_cex :
    (revoke_lesson_activation
        { dbNoActivations with lessonActivations := [⟨90, 10, 7, true⟩] } 10 7).lessonActivations
      = [⟨90, 10, 7, false⟩] := rfl

end EduPath
